import Mathlib

/-!
Shallow embedding of the WebRTC signaling relay server (src/unnamed/part_000).

The server keeps a mutable object `users` mapping a participant id to an
object holding the transport connection, the id, and (after a join) a user
name.  Connection handles are modelled as natural numbers; the JS object is
modelled as an association list that preserves insertion order, because
Object.values iterates keys in insertion order and both the roster snapshot
and the broadcast fan-out follow that order.

Every handler is embedded as a pure function from the registry (and the
inbound event) to the new registry paired with an Effect: the list of
(connection, envelope) sends it performed, in order, plus the JavaScript
exception (if any) that escaped the handler.  JSON.parse of the raw inbound
data is modelled by passing its result (envelope or SyntaxError) to the
message handler, since the source calls JSON.parse first and lets any
exception propagate.
-/

/-- Modelled from the spec: the shared message-types module
(client/message-types.js) is imported by both source files but is not in
src.  The spec taxonomy lists distinct tags for connection-established,
join, roster-update, offer, answer and ice-candidate; the relay only needs
the tags to be distinct strings, and the property names used in the source
(signalServerConnected, join, userList) fix the spelling used here. -/
def messageTypes.signalServerConnected : String := "signalServerConnected"

/-- Modelled from the spec: the join tag of the shared message-types module
(not in src); see messageTypes.signalServerConnected. -/
def messageTypes.join : String := "join"

/-- Modelled from the spec: the roster-update tag of the shared
message-types module (not in src); see messageTypes.signalServerConnected. -/
def messageTypes.userList : String := "userList"

/-- One roster entry, as built by getUserList:
an object with userName and userId properties, either of which may be
undefined (modelled by none). -/
structure UserEntry where
  userName : Option String
  userId : Option String
deriving DecidableEq

/-- A registry value: the object stored in users[id].  A value created on
connection has all three fields; the object created by handleJoin for an
unknown sender (spreading undefined) has only userName, so connection and
userId are Options. -/
structure User where
  connection : Option Nat
  userId : Option String
  userName : Option String
deriving DecidableEq

/-- An inbound or outbound envelope: a JSON object whose fields the relay
may read.  Absent JS properties are none.  The users field carries the
roster of a userList envelope; payload stands for the opaque rest of a
signaling message (sdp, candidate, ...) which the relay never inspects. -/
structure Envelope where
  type : Option String := none
  senderId : Option String := none
  recipientId : Option String := none
  userName : Option String := none
  userId : Option String := none
  users : Option (List UserEntry) := none
  payload : Option String := none
deriving DecidableEq

/-- The JavaScript exceptions the relay code can raise: TypeError from
reading a property of undefined, SyntaxError from JSON.parse. -/
inductive JsError where
  | typeError
  | syntaxError
deriving DecidableEq

/-- What one handler invocation did: the sends it performed, in order, and
the exception (if any) that escaped it. -/
structure Effect where
  sent : List (Nat × Envelope)
  error : Option JsError
deriving DecidableEq

def noEffect : Effect := ⟨[], none⟩

/-- The users object: participant id to stored user, in insertion order. -/
abbrev Registry : Type := List (String × User)

/-- JS property read users[key]. -/
def lookupUser : Registry → String → Option User
  | [], _ => none
  | (k, u) :: rest, key => if k = key then some u else lookupUser rest key

/-- JS assignment users[key] = u: an existing key keeps its position, a new
key is appended (JS objects preserve insertion order). -/
def setKey : Registry → String → User → Registry
  | [], key, u => [(key, u)]
  | (k, v) :: rest, key, u =>
    if k = key then (key, u) :: rest else (k, v) :: setKey rest key u

/-- JS delete users[key]. -/
def eraseKey : Registry → String → Registry
  | [], _ => []
  | (k, v) :: rest, key => if k = key then rest else (k, v) :: eraseKey rest key

/-- JS truthiness of an optional string field: undefined and the empty
string are falsy, every other string is truthy. -/
def truthyStr : Option String → Bool
  | some s => !(s == "")
  | none => false

/-- JS object-key coercion: an undefined index reads or writes the literal
key string of the undefined value. -/
def jsKey : Option String → String
  | some s => s
  | none => "undefined"

/-- sendToUser(user, message): user.connection.send(JSON.stringify(message)).
Reading .connection of undefined, or calling .send on an undefined
connection, throws a TypeError. -/
def sendToUser : Option User → Envelope → Effect
  | none, _ => ⟨[], some JsError.typeError⟩
  | some u, msg =>
    match u.connection with
    | none => ⟨[], some JsError.typeError⟩
    | some c => ⟨[(c, msg)], none⟩

/-- sendToAllUsers(message): Object.values(users).forEach sends to each user
in insertion order; a user without a connection throws a TypeError, which
aborts the forEach after the sends already performed. -/
def sendToAllUsers : Registry → Envelope → Effect
  | [], _ => noEffect
  | (_, u) :: rest, msg =>
    match u.connection with
    | none => ⟨[], some JsError.typeError⟩
    | some c =>
      let e := sendToAllUsers rest msg
      ⟨(c, msg) :: e.sent, e.error⟩

/-- getUserList(): the roster snapshot, one entry per registry value, with
the stored userName and userId copied as they are (possibly undefined). -/
def getUserList (users : Registry) : List UserEntry :=
  users.map fun p => ⟨p.2.userName, p.2.userId⟩

/-- The userList envelope built by sendUpdatedUserList. -/
def userListEnvelope (users : Registry) : Envelope :=
  { type := some messageTypes.userList, users := some (getUserList users) }

/-- sendUpdatedUserList(): broadcast the current roster to every user. -/
def sendUpdatedUserList (users : Registry) : Effect :=
  sendToAllUsers users (userListEnvelope users)

/-- handleJoin(message): reads users[message.senderId] (possibly undefined),
stores the spread of that value with userName overwritten by
message.userName back under the same key (spreading undefined contributes
no fields), then broadcasts the roster over the updated registry. -/
def handleJoin (users : Registry) (message : Envelope) : Registry × Effect :=
  let user := lookupUser users (jsKey message.senderId)
  let updated : User :=
    match user with
    | some u => ⟨u.connection, u.userId, message.userName⟩
    | none => ⟨none, none, message.userName⟩
  let users2 := setKey users (jsKey message.senderId) updated
  (users2, sendUpdatedUserList users2)

/-- handleMessage(message): dispatch on message.type through the handler
table (which maps only the join tag), else forward to the looked-up
recipient when both senderId and recipientId are truthy, else do nothing. -/
def handleMessage (users : Registry) (message : Envelope) : Registry × Effect :=
  if message.type = some messageTypes.join then
    handleJoin users message
  else if truthyStr message.senderId && truthyStr message.recipientId then
    (users, sendToUser (lookupUser users (jsKey message.recipientId)) message)
  else
    (users, noEffect)

/-- connection.onmessage: JSON.parse(event.data) either yields an envelope
or throws a SyntaxError, which escapes the handler uncaught; on success the
parsed envelope goes to handleMessage.  The argument is the parse result. -/
def onMessage (users : Registry) (parsed : Except JsError Envelope) :
    Registry × Effect :=
  match parsed with
  | Except.error e => (users, ⟨[], some e⟩)
  | Except.ok m => handleMessage users m

/-- The connected envelope sent right after registration. -/
def connectedEnvelope (freshId : String) : Envelope :=
  { type := some messageTypes.signalServerConnected, userId := some freshId }

/-- The user object built by the connection handler. -/
def mkNewUser (connection : Nat) (freshId : String) : User :=
  ⟨some connection, some freshId, none⟩

/-- The connection handler: build a user with the accepted connection and
the id produced by uuid.v4() (passed in as freshId), store it under that
id, and send that user the connected envelope carrying the id. -/
def onConnect (users : Registry) (connection : Nat) (freshId : String) :
    Registry × Effect :=
  let user := mkNewUser connection freshId
  let users2 := setKey users freshId user
  (users2, sendToUser (some user) (connectedEnvelope freshId))

/-- connection.onclose: delete users[user.userId] for the closure captured
id, then broadcast the roster over whatever remains. -/
def onClose (users : Registry) (userId : String) : Registry × Effect :=
  let users2 := eraseKey users userId
  (users2, sendUpdatedUserList users2)

/-- The registry states reachable in normal operation: every stored user
keeps its transport connection and carries its own key as userId. -/
def WellFormed (users : Registry) : Prop :=
  ∀ p ∈ users, p.2.connection.isSome = true ∧ p.2.userId = some p.1

instance (users : Registry) : Decidable (WellFormed users) :=
  List.decidableBAll _ users

/-- Folding a list of (connection, fresh id) connect events into a registry,
starting from the given one. -/
def connectFrom (users : Registry) (l : List (Nat × String)) : Registry :=
  l.foldl (fun us ci => (onConnect us ci.1 ci.2).1) users

/-- The registry after a sequence of connect events starting from empty. -/
def connectList (l : List (Nat × String)) : Registry :=
  connectFrom [] l

/-- Models JSON.stringify applied to one roster entry: the serialized object
lists a key/value pair per property whose value is defined; a property whose
value is undefined is omitted from the output entirely. -/
def serializeUserEntry (e : UserEntry) : List (String × String) :=
  (match e.userName with
    | some n => [("userName", n)]
    | none => []) ++
  (match e.userId with
    | some i => [("userId", i)]
    | none => [])

/-- Sample forwardable envelope addressed to an id that never connected. -/
def offerToGhost : Envelope :=
  { type := some "offer", senderId := some "a1", recipientId := some "ghost",
    payload := some "sdp-offer" }

/-- Sample join envelope from participant a1. -/
def joinFromA : Envelope :=
  { type := some messageTypes.join, senderId := some "a1",
    userName := some "A" }

/-- Sample join envelope whose sender id was never registered. -/
def joinFromGhost : Envelope :=
  { type := some messageTypes.join, senderId := some "ghost",
    userName := some "G" }

def userA : User := ⟨some 1, some "a1", some "A"⟩

def userB : User := ⟨some 2, some "b1", none⟩

/-- Registry holding a named a1 and a still-anonymous b1. -/
def regAB : Registry := [("a1", userA), ("b1", userB)]

/-- The registry the server itself builds from the concrete scenario:
a1 connects, b1 connects, a1 joins with name A. -/
def demoUsers : Registry :=
  (handleMessage (onConnect (onConnect [] 1 "a1").1 2 "b1").1 joinFromA).1

/-- Sample forwardable envelope from a1 addressed to the registered b1. -/
def offerToB : Envelope :=
  { type := some "offer", senderId := some "a1", recipientId := some "b1",
    payload := some "sdp-offer" }

/-- Sample join envelope from participant b1. -/
def joinFromB : Envelope :=
  { type := some messageTypes.join, senderId := some "b1",
    userName := some "Bob" }

theorem setKey_of_lookup_none (users : Registry) (k : String) (u : User)
    (h : lookupUser users k = none) : setKey users k u = users ++ [(k, u)] := by
  induction users with
  | nil => rfl
  | cons p rest ih =>
    by_cases hk : p.1 = k
    · simp [lookupUser, hk] at h
    · simp only [lookupUser, hk, if_neg, if_false] at h
      simp [setKey, hk, ih h]

theorem lookupUser_setKey_self (users : Registry) (k : String) (u : User) :
    lookupUser (setKey users k u) k = some u := by
  induction users with
  | nil => simp [setKey, lookupUser]
  | cons p rest ih =>
    by_cases hk : p.1 = k
    · simp [setKey, lookupUser, hk]
    · simp [setKey, lookupUser, hk, ih]

theorem lookupUser_setKey_ne (users : Registry) (k : String) (u : User)
    (k2 : String) (h : k2 ≠ k) :
    lookupUser (setKey users k u) k2 = lookupUser users k2 := by
  have h2 : ¬(k = k2) := fun e => h e.symm
  induction users with
  | nil => simp [setKey, lookupUser, h2]
  | cons p rest ih =>
    rcases p with ⟨pk, pv⟩
    by_cases hk : pk = k
    · subst hk
      simp [setKey, lookupUser, h2]
    · simp [setKey, lookupUser, hk, ih]

theorem map_fst_setKey_of_lookup_some (users : Registry) (k : String)
    (u v : User) (h : lookupUser users k = some v) :
    (setKey users k u).map Prod.fst = users.map Prod.fst := by
  induction users with
  | nil => simp [lookupUser] at h
  | cons p rest ih =>
    by_cases hk : p.1 = k
    · simp [setKey, hk]
    · simp only [lookupUser, hk, if_neg, if_false] at h
      simp [setKey, hk, ih h]

theorem mem_of_lookupUser_some (users : Registry) (k : String) (u : User)
    (h : lookupUser users k = some u) : (k, u) ∈ users := by
  induction users with
  | nil => simp [lookupUser] at h
  | cons p rest ih =>
    rcases p with ⟨pk, pv⟩
    by_cases hk : pk = k
    · subst hk
      simp [lookupUser] at h
      subst h
      exact List.mem_cons_self _ _
    · simp only [lookupUser, hk, if_neg, if_false] at h
      exact List.mem_cons_of_mem _ (ih h)

theorem eraseKey_of_lookup_none (users : Registry) (k : String)
    (h : lookupUser users k = none) : eraseKey users k = users := by
  induction users with
  | nil => rfl
  | cons p rest ih =>
    by_cases hk : p.1 = k
    · simp [lookupUser, hk] at h
    · simp only [lookupUser, hk, if_neg, if_false] at h
      simp [eraseKey, hk, ih h]

theorem sendToAllUsers_error_isSome_of_ghost (users : Registry)
    (msg : Envelope) (p : String × User) (hp : p ∈ users)
    (hc : p.2.connection = none) :
    (sendToAllUsers users msg).error.isSome = true := by
  induction users with
  | nil => simp at hp
  | cons q rest ih =>
    rcases List.mem_cons.mp hp with hq | hq
    · subst hq
      simp [sendToAllUsers, hc]
    · cases hcq : q.2.connection with
      | none => simp [sendToAllUsers, hcq]
      | some c =>
        simpa [sendToAllUsers, hcq] using ih hq

theorem sendToAllUsers_of_wellFormed (users : Registry) (msg : Envelope)
    (hw : WellFormed users) :
    sendToAllUsers users msg =
      ⟨users.map fun p => (p.2.connection.getD 0, msg), none⟩ := by
  induction users with
  | nil => rfl
  | cons q rest ih =>
    have hq := hw q (List.mem_cons_self q rest)
    cases hcq : q.2.connection with
    | none => simp [hcq] at hq
    | some c =>
      have hrest : WellFormed rest := fun p hp =>
        hw p (List.mem_cons_of_mem q hp)
      simp [sendToAllUsers, hcq, ih hrest]

theorem lookupUser_append (a b : Registry) (k : String) :
    lookupUser (a ++ b) k =
      match lookupUser a k with
      | some u => some u
      | none => lookupUser b k := by
  induction a with
  | nil => simp [lookupUser]
  | cons p rest ih =>
    by_cases hk : p.1 = k
    · simp [lookupUser, hk]
    · simp [lookupUser, hk, ih]

theorem connectFrom_length (l : List (Nat × String)) :
    ∀ users : Registry,
      (∀ id ∈ l.map Prod.snd, lookupUser users id = none) →
      (l.map Prod.snd).Nodup →
      (connectFrom users l).length = users.length + l.length := by
  induction l with
  | nil => intro users _ _; simp [connectFrom]
  | cons ci rest ih =>
    intro users hfresh hnd
    have hci : lookupUser users ci.2 = none := hfresh ci.2 (by simp)
    have hstep : (onConnect users ci.1 ci.2).1 =
        users ++ [(ci.2, mkNewUser ci.1 ci.2)] := by
      simp [onConnect, setKey_of_lookup_none users ci.2 _ hci]
    rw [List.map_cons] at hnd
    have hnd2 : (rest.map Prod.snd).Nodup := (List.nodup_cons.mp hnd).2
    have hnotin : ci.2 ∉ rest.map Prod.snd := (List.nodup_cons.mp hnd).1
    have hfresh2 : ∀ id ∈ rest.map Prod.snd,
        lookupUser (users ++ [(ci.2, mkNewUser ci.1 ci.2)]) id = none := by
      intro id hid
      have hne : ci.2 ≠ id := fun he => hnotin (he ▸ hid)
      rw [lookupUser_append, hfresh id (List.mem_cons_of_mem _ hid)]
      simp [lookupUser, hne]
    have : connectFrom users (ci :: rest) =
        connectFrom (users ++ [(ci.2, mkNewUser ci.1 ci.2)]) rest := by
      simp [connectFrom, List.foldl_cons, hstep]
    rw [this, ih _ hfresh2 hnd2]
    simp
    omega

/-- C1: contrary to the claim, an inbound envelope with no structural
handler, a truthy senderId and a recipientId that is not a key of the
registry is not dropped silently: the recipient lookup yields undefined and
sendToUser throws a TypeError reading its connection property.  The
registry is left unchanged and nothing is sent, but the exception escapes
the message handler uncaught. -/
theorem c1_unknown_recipient_raises (users : Registry) (m : Envelope)
    (hty : ¬(m.type = some messageTypes.join))
    (hs : truthyStr m.senderId = true) (hr : truthyStr m.recipientId = true)
    (habs : lookupUser users (jsKey m.recipientId) = none) :
    handleMessage users m = (users, ⟨[], some JsError.typeError⟩) := by
  simp [handleMessage, hty, hs, hr, habs, sendToUser]

/-- C1 witness: forwarding an offer to the unregistered id ghost over the
two-user registry raises a TypeError instead of dropping silently. -/
theorem c1_witness :
    handleMessage regAB offerToGhost = (regAB, ⟨[], some JsError.typeError⟩) :=
  c1_unknown_recipient_raises regAB offerToGhost (by decide) (by decide)
    (by decide) (by decide)

/-- C2: contrary to the claim, an undecodable inbound payload is not
dropped and recovered from: JSON.parse throws a SyntaxError and
connection.onmessage has no try/catch, so the exception escapes the handler
uncaught.  The registry is untouched and nothing is sent, but processing is
not non-fatal to the relay. -/
theorem c2_malformed_payload_raises (users : Registry) :
    onMessage users (Except.error JsError.syntaxError) =
      (users, ⟨[], some JsError.syntaxError⟩) := rfl

/-- C3: contrary to the claim, a join whose senderId is not registered is
not a no-op: spreading the undefined lookup result creates a fresh registry
entry under that sender id holding only the name (no connection, no user
id), so the registry changes, and the roster broadcast that follows throws
a TypeError when it reaches that connection-less entry. -/
theorem c3_join_unknown_sender_corrupts (users : Registry) (m : Envelope)
    (s : String) (hsid : m.senderId = some s)
    (habs : lookupUser users s = none) :
    (handleJoin users m).1 =
      users ++ [(s, (⟨none, none, m.userName⟩ : User))] ∧
    ¬((handleJoin users m).1 = users) ∧
    ((handleJoin users m).2.error).isSome = true := by
  have hk : jsKey m.senderId = s := by rw [hsid]; rfl
  have husers2 : (handleJoin users m).1 =
      users ++ [(s, (⟨none, none, m.userName⟩ : User))] := by
    simp [handleJoin, hk, habs, setKey_of_lookup_none users s _ habs]
  have hne : ¬((handleJoin users m).1 = users) := by
    rw [husers2]
    intro he
    have hlen := congrArg List.length he
    simp [List.length_append] at hlen
  have herr : ((handleJoin users m).2.error).isSome = true := by
    have hmem : (s, (⟨none, none, m.userName⟩ : User)) ∈
        users ++ [(s, (⟨none, none, m.userName⟩ : User))] :=
      List.mem_append_right _ (List.mem_singleton.mpr rfl)
    have h2 : (handleJoin users m).2 =
        sendUpdatedUserList (users ++ [(s, (⟨none, none, m.userName⟩ : User))]) := by
      simp [handleJoin, hk, habs, setKey_of_lookup_none users s _ habs]
    rw [h2]
    exact sendToAllUsers_error_isSome_of_ghost _ _ _ hmem rfl
  exact ⟨husers2, hne, herr⟩

/-- C3 witness: a join from the never-registered id ghost over a one-user
registry appends a connection-less entry and the broadcast errors. -/
theorem c3_witness :
    (handleJoin [("a1", userA)] joinFromGhost).1 =
      [("a1", userA)] ++ [("ghost", (⟨none, none, some "G"⟩ : User))] ∧
    ¬((handleJoin [("a1", userA)] joinFromGhost).1 = [("a1", userA)]) ∧
    ((handleJoin [("a1", userA)] joinFromGhost).2.error).isSome = true :=
  c3_join_unknown_sender_corrupts [("a1", userA)] joinFromGhost "ghost"
    (by decide) (by decide)

/-- C4 counterexample: closing b1 twice over the two-user registry leaves
the registry of the first close unchanged, yet the second close still sends
a roster broadcast, identical to the one the first close sent, instead of
sending nothing. -/
theorem c4_counterexample :
    (onClose (onClose regAB "b1").1 "b1").1 = (onClose regAB "b1").1 ∧
    ¬((onClose (onClose regAB "b1").1 "b1").2.sent = []) ∧
    (onClose (onClose regAB "b1").1 "b1").2 = (onClose regAB "b1").2 := by
  decide

/-- C4 amended: a disconnect for an id already absent removes nothing,
raises no error and leaves the registry unchanged, but it is not silent:
every disconnect broadcasts the roster to all remaining participants, so
the second disconnect repeats the full fan-out with the same content. -/
theorem c4_absent_disconnect_rebroadcasts (users : Registry) (uid : String)
    (habs : lookupUser users uid = none) (hw : WellFormed users) :
    (onClose users uid).1 = users ∧
    (onClose users uid).2.error = none ∧
    (onClose users uid).2.sent =
      users.map fun p => (p.2.connection.getD 0, userListEnvelope users) := by
  have herase : eraseKey users uid = users :=
    eraseKey_of_lookup_none users uid habs
  refine ⟨?_, ?_, ?_⟩ <;>
    simp [onClose, herase, sendUpdatedUserList,
      sendToAllUsers_of_wellFormed users _ hw]

/-- C4 witness: disconnecting the absent id b1 over a one-user registry
changes nothing and raises nothing, yet still broadcasts the roster to the
remaining participant a1. -/
theorem c4_witness :
    (onClose [("a1", userA)] "b1").1 = [("a1", userA)] ∧
    (onClose [("a1", userA)] "b1").2.error = none ∧
    (onClose [("a1", userA)] "b1").2.sent =
      [("a1", userA)].map fun p =>
        (p.2.connection.getD 0, userListEnvelope [("a1", userA)]) :=
  c4_absent_disconnect_rebroadcasts [("a1", userA)] "b1" (by decide)
    (by decide)

/-- C5: with a fresh id, as the identifier generator provides, the
connection handler appends exactly one new entry holding that id and no
name, growing the registry by one, and performs exactly one send: the
connected envelope carrying the assigned id, to the new connection. -/
theorem c5_onConnect_registers_and_notifies (users : Registry) (c : Nat)
    (freshId : String) (hfresh : lookupUser users freshId = none) :
    (onConnect users c freshId).1 =
      users ++ [(freshId, mkNewUser c freshId)] ∧
    (onConnect users c freshId).1.length = users.length + 1 ∧
    lookupUser (onConnect users c freshId).1 freshId =
      some ⟨some c, some freshId, none⟩ ∧
    (onConnect users c freshId).2 =
      ⟨[(c, connectedEnvelope freshId)], none⟩ := by
  have happ : (onConnect users c freshId).1 =
      users ++ [(freshId, mkNewUser c freshId)] := by
    simp [onConnect, setKey_of_lookup_none users freshId _ hfresh]
  refine ⟨happ, ?_, ?_, rfl⟩
  · rw [happ]
    simp
  · show lookupUser (setKey users freshId (mkNewUser c freshId)) freshId = _
    rw [lookupUser_setKey_self]
    rfl

/-- C5 witness: connection 3 with fresh id c1 over the two-user registry
appends one anonymous entry and receives exactly one connected envelope. -/
theorem c5_witness :
    (onConnect regAB 3 "c1").1 = regAB ++ [("c1", mkNewUser 3 "c1")] ∧
    (onConnect regAB 3 "c1").1.length = regAB.length + 1 ∧
    lookupUser (onConnect regAB 3 "c1").1 "c1" =
      some ⟨some 3, some "c1", none⟩ ∧
    (onConnect regAB 3 "c1").2 = ⟨[(3, connectedEnvelope "c1")], none⟩ :=
  c5_onConnect_registers_and_notifies regAB 3 "c1" (by decide)

/-- C6: an envelope with no structural handler, a truthy senderId and a
registered recipientId is forwarded verbatim: the registry is unchanged and
the one and only send delivers the inbound envelope itself, sender id and
all, to the recipient connection. -/
theorem c6_forward_verbatim (users : Registry) (m : Envelope) (u : User)
    (c : Nat) (hty : ¬(m.type = some messageTypes.join))
    (hs : truthyStr m.senderId = true) (hr : truthyStr m.recipientId = true)
    (hfound : lookupUser users (jsKey m.recipientId) = some u)
    (hc : u.connection = some c) :
    handleMessage users m = (users, ⟨[(c, m)], none⟩) := by
  simp [handleMessage, hty, hs, hr, hfound, sendToUser, hc]

/-- C6 witness: the offer from a1 to the registered b1 goes verbatim to
connection 2 only, and the registry stays as it was. -/
theorem c6_witness :
    handleMessage regAB offerToB = (regAB, ⟨[(2, offerToB)], none⟩) :=
  c6_forward_verbatim regAB offerToB userB 2 (by decide) (by decide)
    (by decide) (by decide) (by decide)

/-- C7: a roster broadcast is a full fan-out of one userList envelope
holding one entry per registered participant, named or not: over a
well-formed registry the broadcast reaches every registered connection with
the full snapshot; the snapshot has exactly one entry per registry entry;
after a registered participant s joins with a name the snapshot contains
the entry carrying that id and that name; and a sequence of connects with
distinct fresh ids from the empty registry yields a snapshot with exactly
one entry per connect. -/
theorem c7_roster_broadcast_full (users : Registry) (hw : WellFormed users)
    (s nm : String) (u : User) (hu : lookupUser users s = some u)
    (l : List (Nat × String)) (hnd : (l.map Prod.snd).Nodup) :
    (sendUpdatedUserList users).sent =
      users.map (fun p => (p.2.connection.getD 0, userListEnvelope users)) ∧
    (getUserList users).length = users.length ∧
    (⟨some nm, some s⟩ : UserEntry) ∈
      getUserList (handleJoin users
        { type := some messageTypes.join, senderId := some s,
          userName := some nm }).1 ∧
    (getUserList (connectList l)).length = l.length := by
  have hmemu := mem_of_lookupUser_some users s u hu
  have hid : u.userId = some s := (hw (s, u) hmemu).2
  refine ⟨?_, ?_, ?_, ?_⟩
  · rw [sendUpdatedUserList, sendToAllUsers_of_wellFormed users _ hw]
  · simp [getUserList]
  · have hupd : lookupUser (handleJoin users
        { type := some messageTypes.join, senderId := some s,
          userName := some nm }).1 s =
        some ⟨u.connection, u.userId, some nm⟩ := by
      simp [handleJoin, jsKey, hu, lookupUser_setKey_self]
    have hmem2 := mem_of_lookupUser_some _ _ _ hupd
    exact List.mem_map.mpr
      ⟨(s, ⟨u.connection, u.userId, some nm⟩), hmem2, by simp [hid]⟩
  · have hlen := connectFrom_length l [] (fun id _ => rfl) hnd
    simp [connectList, getUserList]
    simpa using hlen

/-- C7 witness: over the two-user registry, with a1 joining as Alice and
two fresh connects x1 and y1 from empty, the broadcast and snapshot shapes
come out as stated. -/
theorem c7_witness :
    (sendUpdatedUserList regAB).sent =
      regAB.map (fun p => (p.2.connection.getD 0, userListEnvelope regAB)) ∧
    (getUserList regAB).length = regAB.length ∧
    (⟨some "Alice", some "a1"⟩ : UserEntry) ∈
      getUserList (handleJoin regAB
        { type := some messageTypes.join, senderId := some "a1",
          userName := some "Alice" }).1 ∧
    (getUserList (connectList [(5, "x1"), (6, "y1")])).length =
      [(5, "x1"), (6, "y1")].length :=
  c7_roster_broadcast_full regAB (by decide) "a1" "Alice" userA (by decide)
    [(5, "x1"), (6, "y1")] (by decide)

/-- C8: a join from a registered sender rewrites exactly that sender's
entry: the stored name becomes the envelope's userName, overwriting any
previous one, while the stored connection and userId are copied unchanged;
any other key looks up exactly as before, and the key sequence of the
registry is untouched, so no id is ever altered. -/
theorem c8_join_updates_only_name (users : Registry) (m : Envelope)
    (s : String) (u : User) (k2 : String) (hsid : m.senderId = some s)
    (hu : lookupUser users s = some u) (hk2 : ¬(k2 = s)) :
    lookupUser (handleJoin users m).1 s =
      some ⟨u.connection, u.userId, m.userName⟩ ∧
    lookupUser (handleJoin users m).1 k2 = lookupUser users k2 ∧
    (handleJoin users m).1.map Prod.fst = users.map Prod.fst := by
  have hk : jsKey m.senderId = s := by rw [hsid]; rfl
  refine ⟨?_, ?_, ?_⟩
  · simp [handleJoin, hk, hu, lookupUser_setKey_self]
  · simp [handleJoin, hk, hu, lookupUser_setKey_ne users s _ k2 hk2]
  · simp [handleJoin, hk, hu, map_fst_setKey_of_lookup_some users s _ u hu]

/-- C8 witness: b1 joining as Bob over the two-user registry renames only
b1, keeping its connection and id, leaving a1 and the key order intact. -/
theorem c8_witness :
    lookupUser (handleJoin regAB joinFromB).1 "b1" =
      some ⟨userB.connection, userB.userId, joinFromB.userName⟩ ∧
    lookupUser (handleJoin regAB joinFromB).1 "a1" = lookupUser regAB "a1" ∧
    (handleJoin regAB joinFromB).1.map Prod.fst = regAB.map Prod.fst :=
  c8_join_updates_only_name regAB joinFromB "b1" userB "a1" (by decide)
    (by decide) (by decide)

/-- C9 counterexample: in the concrete scenario the server itself builds
(a1 connects, b1 connects, a1 joins as A), the roster entry for the
not-yet-joined b1 carries an undefined name, not an empty string: the entry
with an empty name is not in the snapshot, and serializing b1's entry omits
the name field entirely instead of emitting it with an empty value. -/
theorem c9_counterexample :
    getUserList demoUsers =
      [⟨some "A", some "a1"⟩, ⟨none, some "b1"⟩] ∧
    ¬((⟨some "", some "b1"⟩ : UserEntry) ∈ getUserList demoUsers) ∧
    serializeUserEntry ⟨none, some "b1"⟩ = [("userId", "b1")] ∧
    ¬(serializeUserEntry ⟨none, some "b1"⟩ =
        [("userName", ""), ("userId", "b1")]) := by
  decide

/-- C9 amended: a registered participant that has not yet joined
contributes a roster entry carrying its id with the name undefined: the
field is omitted from the serialized entry, as JSON.stringify drops
properties whose value is undefined, rather than being present with an
empty-string value. -/
theorem c9_unnamed_entry_field_absent (users : Registry) (s : String)
    (u : User) (hu : lookupUser users s = some u)
    (hname : u.userName = none) (hid : u.userId = some s) :
    (⟨none, some s⟩ : UserEntry) ∈ getUserList users ∧
    serializeUserEntry ⟨none, some s⟩ = [("userId", s)] ∧
    ¬(serializeUserEntry ⟨none, some s⟩ =
        [("userName", ""), ("userId", s)]) := by
  refine ⟨?_, rfl, by simp [serializeUserEntry]⟩
  have hmem := mem_of_lookupUser_some users s u hu
  exact List.mem_map.mpr ⟨(s, u), hmem, by simp [hname, hid]⟩

/-- C9 amended witness: the registered, never-joined b1 contributes the
entry with id b1 and no name, whose serialization has no name field. -/
theorem c9_witness :
    (⟨none, some "b1"⟩ : UserEntry) ∈ getUserList regAB ∧
    serializeUserEntry ⟨none, some "b1"⟩ = [("userId", "b1")] ∧
    ¬(serializeUserEntry ⟨none, some "b1"⟩ =
        [("userName", ""), ("userId", "b1")]) :=
  c9_unnamed_entry_field_absent regAB "b1" userB (by decide) (by decide)
    (by decide)

/-- C10: accepting a connection performs exactly one send, the connected
envelope to the new connection itself, with no error; that envelope is a
connection-established notice and not a userList envelope, so no roster
broadcast reaches anyone on connect and existing participants receive
nothing. -/
theorem c10_onConnect_sends_only_connected (users : Registry) (c : Nat)
    (freshId : String) :
    (onConnect users c freshId).2 =
      ⟨[(c, connectedEnvelope freshId)], none⟩ ∧
    (connectedEnvelope freshId).type =
      some messageTypes.signalServerConnected ∧
    ¬((connectedEnvelope freshId).type = some messageTypes.userList) := by
  refine ⟨rfl, rfl, ?_⟩
  intro hcontra
  simp [connectedEnvelope, messageTypes.signalServerConnected,
    messageTypes.userList] at hcontra
